import Mathlib

/-!
Verification development for the tornado-aws low-level AWS client.

The definitions below are a shallow embedding of `tornado_aws/config.py`
and `tornado_aws/client.py`:

* Python strings are `String`; `None`-able strings are `Option String`.
* Python dicts that the code builds or reads are association lists; insertion
  with overwrite (`d[k] = v`) is `dictUpd`, membership (`k in d`) is a key
  scan, and `d[k]` / `d.get(k)` are lookups.
* Python truthiness of an optional string (`if self._access_key:`) is
  `pyTruthy`: `None` and the empty string are falsy.
* Fallible code returns `Except`; the distinct Python exception classes that
  the embedded paths can raise (`TypeError`, `KeyError`, `ValueError`,
  `IndexError`) are the constructors of `PyExc`.
* I/O collaborators (environment variables, the shared credentials and config
  files, the EC2 metadata endpoint, the HTTP transport) are passed in as
  explicit values or oracles, so every embedded function is pure and
  executable.

Definitions deliberately named `...Claim` are NOT translated from the source:
they follow the wording of a spec claim and exist only to be compared with
the source-derived definition next to them.
-/

namespace TornadoAws

/-- Python truthiness of an optional string: `None` and `''` are falsy. -/
def pyTruthy : Option String → Bool
  | none => false
  | some s => !(s == "")

/-- Python `a or b` on optional strings (`a` wins when truthy). -/
def pyOr (a b : Option String) : Option String :=
  if pyTruthy a then a else b

/-- Python `a or d` where `d` is a plain (string) default. -/
def pyOrD (a : Option String) (d : String) : String :=
  if pyTruthy a then a.getD d else d

/-- `os.getenv(name, default)`: the environment value when the variable is
set (even if empty), else the default. -/
def getenvD (envVal : Option String) (dflt : Option String) : Option String :=
  match envVal with
  | some v => some v
  | none => dflt

/-- A parsed INI file as produced by `config._parse_file`: section name to
flat key/value pairs. -/
abbrev Sections : Type := List (String × List (String × String))

/-- `section in config` for a parsed file. -/
def hasSect (cfg : Sections) (sect : String) : Bool :=
  (List.lookup sect cfg).isSome

/-- `config.get(sect, {}).get(key)` for a parsed file. -/
def sectGet (cfg : Sections) (sect key : String) : Option String :=
  match List.lookup sect cfg with
  | some kvs => List.lookup key kvs
  | none => none

/-- `config.DEFAULT_REGION`. -/
def DEFAULT_REGION : String := "us-east-1"

/-- Result of `config.get_region`: a region string, or one of the two
exceptions the function can raise. -/
inductive RegionResult
  | ok (region : String)
  | configNotFound
  | noProfileError
deriving DecidableEq

/-- The body of `config.get_region` after the `AWS_DEFAULT_REGION` check:
`configFile` is the parse of the `AWS_CONFIG_FILE` path (`none` models
`ConfigNotFound`), `metadata` is the outcome of
`_request_region_from_instance` (`.error` models the caught
`socket.error`/`OSError` family). -/
def get_region_rest (profile : String) (configFile : Option Sections)
    (metadata : Except Unit String) : RegionResult :=
  match configFile with
  | none =>
    match metadata with
    | .ok r => .ok r
    | .error _ => .configNotFound
  | some config =>
    let key := "profile " ++ profile
    if !(hasSect config key) && !(hasSect config "default") then
      .noProfileError
    else
      .ok (pyOrD (pyOr (sectGet config key "region")
                       (sectGet config "default" "region")) DEFAULT_REGION)

/-- `config.get_region`: `envRegion` is `os.getenv('AWS_DEFAULT_REGION')`
(an empty value is falsy and falls through). -/
def get_region (profile : String) (envRegion : Option String)
    (configFile : Option Sections) (metadata : Except Unit String) :
    RegionResult :=
  match envRegion with
  | some r => if r == "" then get_region_rest profile configFile metadata else .ok r
  | none => get_region_rest profile configFile metadata

/-- The mutable credential fields of `config.Authorization` plus its
`_local_credentials` flag (`local_credentials = false` is the Dynamic
origin: credentials must be fetched from instance metadata). -/
structure AuthState where
  access_key : Option String
  secret_key : Option String
  security_token : Option String
  expiration : Option String
  local_credentials : Bool
deriving DecidableEq

/-- `Authorization.needs_credentials`:
`not self._access_key or not self._secret_key`. -/
def needs_credentials (s : AuthState) : Bool :=
  !(pyTruthy s.access_key) || !(pyTruthy s.secret_key)

/-- `Authorization.reset`: unconditionally clears the four credential
fields (the `_local_credentials` flag is untouched, and nothing is raised
on any path). -/
def reset (s : AuthState) : AuthState :=
  { s with access_key := none, secret_key := none,
           expiration := none, security_token := none }

/-- `Authorization._get_config_value`: the profile section's value for the
key, else the `default` section's. Only called after the profile section
was checked to exist. -/
def get_config_value (config : Sections) (profile key : String) :
    Option String :=
  match sectGet config profile key with
  | some v => some v
  | none => sectGet config "default" key

/-- The environment variables read by `Authorization._resolve_credentials`.
`some ""` models a variable set to the empty string. -/
structure CredEnv where
  aws_access_key_id : Option String
  aws_secret_access_key : Option String
  aws_security_token : Option String
  aws_session_token : Option String
deriving DecidableEq

/-- `Authorization._resolve_config_file_credentials`: `file` is the parse of
the `AWS_SHARED_CREDENTIALS_FILE` path (`none` models the caught
`ConfigNotFound`, which returns leaving the state `s` as is; a file that
exists but lacks the profile section raises `NoProfileError`, the `.error`
case). Note the source assigns the `aws_access_key_id` value to
`_expiration`, and sets `_local_credentials` from `is not None` checks. -/
def resolve_config_file_credentials (s : AuthState) (profile : String)
    (file : Option Sections) : Except Unit AuthState :=
  match file with
  | none => .ok s
  | some config =>
    if !(hasSect config profile) then .error ()
    else
      let ak := get_config_value config profile "aws_access_key_id"
      let sk := get_config_value config profile "aws_secret_access_key"
      let st := pyOr (get_config_value config profile "aws_security_token")
                     (get_config_value config profile "aws_session_token")
      .ok { access_key := ak, secret_key := sk, security_token := st,
            expiration := get_config_value config profile "aws_access_key_id",
            local_credentials := ak.isSome && sk.isSome }

/-- `Authorization._resolve_credentials` as run at construction:
each credential field is `os.getenv(VAR, explicit_argument)`, so a set
environment variable shadows the explicit caller-supplied value; when both
resulting keys are truthy the credentials are local (static), otherwise the
shared credentials file is consulted. -/
def resolve_credentials (profile : String) (env : CredEnv)
    (sharedFile : Option Sections)
    (access_key secret_key security_token : Option String) :
    Except Unit AuthState :=
  let s0 : AuthState := {
    access_key := getenvD env.aws_access_key_id access_key
    secret_key := getenvD env.aws_secret_access_key secret_key
    security_token := getenvD env.aws_security_token
      (getenvD env.aws_session_token security_token)
    expiration := none
    local_credentials := false }
  if pyTruthy s0.access_key && pyTruthy s0.secret_key then
    .ok { s0 with local_credentials := true }
  else
    resolve_config_file_credentials s0 profile sharedFile

/-- Claim wording for C4 (not the source): `needs_credentials()` is true iff
the origin is Dynamic and the access key is currently empty. -/
def needsCredentialsClaim (s : AuthState) : Bool :=
  !s.local_credentials && !(pyTruthy s.access_key)

/-- ASCII lower-casing of one character (`str.lower()` on the ASCII header
names the signer sees). -/
def asciiLowerChar (c : Char) : Char :=
  if 65 ≤ c.toNat && c.toNat ≤ 90 then Char.ofNat (c.toNat + 32) else c

/-- `str.lower()` restricted to ASCII case mapping. -/
def asciiLower (s : String) : String :=
  String.mk (s.data.map asciiLowerChar)

/-- Lexicographic code-point comparison of character lists, the order
Python's `sorted` uses on strings. -/
def lexLe : List Char → List Char → Bool
  | [], _ => true
  | _ :: _, [] => false
  | a :: as, b :: bs => a.toNat < b.toNat || (a == b && lexLe as bs)

/-- `a <= b` on strings by code points. -/
def strLe (a b : String) : Bool := lexLe a.data b.data

/-- Insertion step of the sort below. -/
def insertStr (s : String) : List String → List String
  | [] => [s]
  | t :: ts => if strLe s t then s :: t :: ts else t :: insertStr s ts

/-- `sorted(...)` on a list of strings (ascending code-point order). -/
def sortStrs (l : List String) : List String := l.foldr insertStr []

/-- `d[k] = v` on a dict represented as an association list: overwrite the
existing entry for `k`, else append. -/
def dictUpd (d : List (String × String)) (k v : String) :
    List (String × String) :=
  if d.any (fun p => p.1 == k) then
    d.map (fun p => if p.1 == k then (k, v) else p)
  else d ++ [(k, v)]

/-- A Python dict built by inserting the pairs of `l` in order
(later occurrences of a key overwrite earlier ones). -/
def pyDict (l : List (String × String)) : List (String × String) :=
  l.foldl (fun d p => dictUpd d p.1 p.2) []

/-- Whitespace characters stripped by Python's `str.strip()`. -/
def isPyWs (c : Char) : Bool :=
  c == ' ' || c == '\t' || c == '\n' || c == '\r' || c == '\x0b' || c == '\x0c'

/-- Drop leading Python whitespace. -/
def dropWs : List Char → List Char
  | [] => []
  | c :: cs => if isPyWs c then dropWs cs else c :: cs

/-- Python `str.strip()`: trim whitespace from both ends. -/
def pyStrip (s : String) : String :=
  String.mk ((dropWs ((dropWs s.data).reverse)).reverse)

/-- `AWSClient._signed_headers`: builds `tmp = {key.lower(): value ...}`,
then the signed-headers list (sorted lower-cased names joined with `;`) and
the canonical headers string (sorted `name:value` lines joined with a
newline plus one trailing newline). Values are inserted verbatim. -/
def signed_headers (headers : List (String × String)) : String × String :=
  let tmp := pyDict (headers.map (fun p => (asciiLower p.1, p.2)))
  let ks := sortStrs (tmp.map Prod.fst)
  let sh := ";".intercalate (ks.map asciiLower)
  let hs := "\n".intercalate
      (ks.map (fun k => k ++ ":" ++ ((List.lookup k tmp).getD ""))) ++ "\n"
  (sh, hs)

/-- Claim wording for C5 (not the source): identical to `signed_headers`
except that every header value is trimmed (`str.strip()`); per the claim the
canonical string uses trimmed values. -/
def signedHeadersClaim (headers : List (String × String)) : String × String :=
  let tmp := pyDict (headers.map (fun p => (asciiLower p.1, pyStrip p.2)))
  let ks := sortStrs (tmp.map Prod.fst)
  let sh := ";".intercalate (ks.map asciiLower)
  let hs := "\n".intercalate
      (ks.map (fun k => k ++ ":" ++ ((List.lookup k tmp).getD ""))) ++ "\n"
  (sh, hs)

/-- `client._AWZ_CONTENT_TYPES`. -/
def AWZ_CONTENT_TYPES : List String :=
  ["application/json", "application/x-amz-json-1.0", "application/x-amz-json-1.1"]

/-- `client._REFRESH_EXCEPTIONS` (JSON-shape refreshable error codes). -/
def REFRESH_EXCEPTIONS : List String :=
  ["AuthFailure", "AuthMissingFailure", "AWS.InvalidAccount",
   "ExpiredTokenException", "InvalidSignatureException",
   "MissingAuthenticationTokenException", "UnrecognizedClientException"]

/-- `client._REFRESH_XML_EXCEPTIONS` (XML-shape refreshable error codes). -/
def REFRESH_XML_EXCEPTIONS : List String :=
  ["AuthFailure", "ExpiredToken", "InvalidClientTokenId", "InvalidSecurity",
   "MissingAuthenticationToken", "SignatureDoesNotMatch"]

/-- Does a character list contain the hash character (`'#' in s`)? -/
def containsHash : List Char → Bool
  | [] => false
  | c :: cs => c == '#' || containsHash cs

/-- Drop everything up to and including the first hash
(`s[s.index('#') + 1:]`). -/
def dropHash : List Char → List Char
  | [] => []
  | c :: cs => if c == '#' then cs else dropHash cs

/-- The `__type` rewrite in `AWSClient._parse_awz_error`: when the value
contains a hash, keep only what follows the FIRST one (`str.index`). -/
def awzTypeOf (t : String) : String :=
  if containsHash t.data then String.mk (dropHash t.data) else t

/-- Take the longest hash-free leading segment. -/
def takeNoHash : List Char → List Char
  | [] => []
  | c :: cs => if c == '#' then [] else c :: takeNoHash cs

/-- Claim wording for C7 (not the source): keep only what follows the LAST
hash. -/
def awzTypeClaim (t : String) : String :=
  if containsHash t.data then String.mk ((takeNoHash t.data.reverse).reverse)
  else t

/-- The Python exceptions the embedded error-classification paths can
raise. -/
inductive PyExc
  | typeError
  | keyError
  | valueError
  | indexError
deriving DecidableEq

/-- The result of `json.loads` on an AWZ error body, as far as
`_parse_awz_error` inspects it: a JSON object (whose values, in the shapes
the classifier reads, are strings) or any non-object JSON value. -/
inductive AwzBody
  | obj (fields : List (String × String))
  | nonObj
deriving DecidableEq

/-- `AWSClient._parse_awz_error`: its input is the outcome of
`json.loads(content)` (`.error` models an undecodable body, whose
`ValueError` propagates uncaught). A dict containing `__type` is returned
with the `__type` value rewritten by `awzTypeOf`; anything else falls off
the end of the function, returning `None`. -/
def parse_awz_error (content : Except Unit AwzBody) :
    Except PyExc (Option (List (String × String))) :=
  match content with
  | .error _ => .error .valueError
  | .ok .nonObj => .ok none
  | .ok (.obj fields) =>
    if fields.any (fun p => p.1 == "__type") then
      .ok (some (dictUpd fields "__type"
        (awzTypeOf ((List.lookup "__type" fields).getD ""))))
    else .ok none

/-- A value in the tree `txml.loads` produces: `null` for an empty element
(Python `None`), `str` for a text-only element, `node` for an element with
children. -/
inductive XmlVal
  | null
  | str (s : String)
  | node (fields : List (String × XmlVal))

/-- Is `needle` a leading segment of `hay`? -/
def leadSeg : List Char → List Char → Bool
  | [], _ => true
  | _ :: _, [] => false
  | a :: as, b :: bs => a == b && leadSeg as bs

/-- Substring containment on character lists (Python `needle in hay` for
strings). -/
def subStr (needle : List Char) : List Char → Bool
  | [] => needle.isEmpty
  | c :: cs => leadSeg needle (c :: cs) || subStr needle cs

/-- Python `k in v`: key membership on a dict, substring containment on a
string, `TypeError` on `None`. -/
def pyIn (k : String) : XmlVal → Except PyExc Bool
  | .node d => .ok (d.any (fun p => p.1 == k))
  | .str s => .ok (subStr k.data s.data)
  | .null => .error .typeError

/-- Python `v[k]`: dict lookup (`KeyError` when absent), `TypeError` when
`v` is a string or `None`. -/
def pyGetItem (v : XmlVal) (k : String) : Except PyExc XmlVal :=
  match v with
  | .node d =>
    match List.lookup k d with
    | some x => .ok x
    | none => .error .keyError
  | .str _ => .error .typeError
  | .null => .error .typeError

/-- Python `v[k] = x`: only a dict supports item assignment. -/
def pySetItem (v : XmlVal) (k : String) (x : XmlVal) : Except PyExc XmlVal :=
  match v with
  | .node d =>
    if d.any (fun p => p.1 == k) then
      .ok (.node (d.map (fun p => if p.1 == k then (k, x) else p)))
    else .ok (.node (d ++ [(k, x)]))
  | _ => .error .typeError

/-- `d.get(k)` on a node, `None` when absent (only reached on nodes in the
embedded paths). -/
def xmlGetD (v : XmlVal) (k : String) (dflt : XmlVal) : XmlVal :=
  match v with
  | .node d => (List.lookup k d).getD dflt
  | _ => dflt

/-- Key membership in the top-level payload dict. -/
def hasKey (payload : List (String × XmlVal)) (k : String) : Bool :=
  payload.any (fun p => p.1 == k)

/-- `payload[k]` when `k` was checked to be present. -/
def xmlLookup (payload : List (String × XmlVal)) (k : String) : XmlVal :=
  (List.lookup k payload).getD .null

/-- Last arm of `AWSClient._parse_xml_error`: take the first top-level tag;
if its value contains `Message` (dict-key or substring membership), wrap it
as `{'Code': key, 'Message': ...}`, else `raise ValueError`. An empty
payload would fail the `tuple(payload.keys())[0]` subscript. -/
def xmlErrorShape4 (payload : List (String × XmlVal)) : Except PyExc XmlVal :=
  match payload with
  | [] => .error .indexError
  | (key, v) :: _ =>
    match pyIn "Message" v with
    | .error e => .error e
    | .ok false => .error .valueError
    | .ok true =>
      match pyGetItem v "Message" with
      | .error e => .error e
      | .ok m => .ok (.node [("Code", .str key), ("Message", m)])

/-- Third arm of `AWSClient._parse_xml_error`: the
`Response/Errors/Error` shape, promoting the sibling `RequestID` into the
error's `RequestId` before returning it. -/
def xmlErrorShape3 (payload : List (String × XmlVal)) : Except PyExc XmlVal :=
  if hasKey payload "Response" then
    match pyIn "Errors" (xmlLookup payload "Response") with
    | .error e => .error e
    | .ok false => xmlErrorShape4 payload
    | .ok true =>
      match pyGetItem (xmlLookup payload "Response") "Errors" with
      | .error e => .error e
      | .ok errs =>
        match pyIn "Error" errs with
        | .error e => .error e
        | .ok false => xmlErrorShape4 payload
        | .ok true =>
          match pyGetItem errs "Error" with
          | .error e => .error e
          | .ok err =>
            pySetItem err "RequestId"
              (xmlGetD (xmlLookup payload "Response") "RequestID" .null)
  else xmlErrorShape4 payload

/-- Second arm of `AWSClient._parse_xml_error`: the `Errors/Error` shape
(the conjunction `'Errors' in payload and 'Error' in payload['Errors']`
short-circuits to the next arm when false). -/
def xmlErrorShape2 (payload : List (String × XmlVal)) : Except PyExc XmlVal :=
  if hasKey payload "Errors" then
    match pyIn "Error" (xmlLookup payload "Errors") with
    | .error e => .error e
    | .ok true => pyGetItem (xmlLookup payload "Errors") "Error"
    | .ok false => xmlErrorShape3 payload
  else xmlErrorShape3 payload

/-- `AWSClient._parse_xml_error` applied to the (successful) result of
`txml.loads`: the four shape checks in source order. -/
def parse_xml_error (payload : List (String × XmlVal)) : Except PyExc XmlVal :=
  if hasKey payload "Error" then .ok (xmlLookup payload "Error")
  else xmlErrorShape2 payload

/-- Python truthiness of an XML tree value. -/
def xmlTruthy : XmlVal → Bool
  | .null => false
  | .str s => !(s == "")
  | .node d => !d.isEmpty

/-- The structured error `_process_error` builds: the AWZ (JSON) shape or
the XML shape built by `AWSClient._aws_error_from_xml`. -/
inductive AWSErrorModel
  | awz (etype : String) (message : String)
  | xml (code : XmlVal) (message : XmlVal) (requestId : XmlVal)
        (resource : XmlVal)

/-- `AWSClient._aws_error_from_xml`: `error['Code']` and `error['Message']`
are subscripts (so they can raise), the request id falls back from
`RequestId` to `x-amzn-RequestId` via `.get`, and `Resource` via `.get`. -/
def aws_error_from_xml (e : XmlVal) : Except PyExc AWSErrorModel :=
  match pyGetItem e "Code" with
  | .error ex => .error ex
  | .ok code =>
    match pyGetItem e "Message" with
    | .error ex => .error ex
    | .ok msg =>
      .ok (.xml code msg
        (xmlGetD e "RequestId" (xmlGetD e "x-amzn-RequestId" .null))
        (xmlGetD e "Resource" .null))

/-- What `AWSClient._process_error` does with one failed response: return
the `(need_credentials, aws_error)` pair, or let a Python exception escape
(`raised`). -/
inductive ProcOutcome
  | verdict (needCreds : Bool) (err : Option AWSErrorModel)
  | raised (e : PyExc)

/-- One failing response body, carried as the outcomes of the two parses the
classifier may attempt on the same bytes: `json.loads` and `txml.loads`
(each `.error` models the parser raising `ValueError`). -/
structure ErrorBody where
  json : Except Unit AwzBody
  xml : Except Unit (List (String × XmlVal))

/-- `AWSClient._awz_response`: the `Content-Type` header (when present) is
one of the AWZ JSON content types. -/
def awz_response (contentType : Option String) : Bool :=
  match contentType with
  | some ct => AWZ_CONTENT_TYPES.contains ct
  | none => false

/-- `AWSClient._process_error`: 599 short-circuits; a 400 with an AWZ
content type goes through `_parse_awz_error` (a `None` result is then
subscripted for the `AWSError` arguments, a `TypeError`); everything else
falls back to `_parse_xml_error`, whose `ValueError` (including one from
`txml.loads`) is caught as `(False, None)` while other exceptions
propagate. -/
def process_error (code : Nat) (contentType : Option String)
    (body : ErrorBody) : ProcOutcome :=
  if code == 599 then .verdict false none
  else if code == 400 && awz_response contentType then
    match parse_awz_error body.json with
    | .error e => .raised e
    | .ok none => .raised .typeError
    | .ok (some fields) =>
      let t := (List.lookup "__type" fields).getD ""
      .verdict (REFRESH_EXCEPTIONS.contains t)
        (some (.awz t ((List.lookup "message" fields).getD "(null)")))
  else
    match body.xml with
    | .error _ => .verdict false none
    | .ok payload =>
      match parse_xml_error payload with
      | .error .valueError => .verdict false none
      | .error e => .raised e
      | .ok xmlErr =>
        if xmlTruthy xmlErr then
          match pyGetItem xmlErr "Code" with
          | .error e => .raised e
          | .ok codeV =>
            let need := match codeV with
              | .str s => REFRESH_XML_EXCEPTIONS.contains s
              | _ => false
            match aws_error_from_xml xmlErr with
            | .error e => .raised e
            | .ok aerr => .verdict need (some aerr)
        else
          match aws_error_from_xml xmlErr with
          | .error e => .raised e
          | .ok aerr => .verdict false (some aerr)

/-- What one transport attempt inside `fetch` produces: a 2xx response
(identified by an id), an `OSError`/`socket.error`, or an `HTTPError`
carrying the failed response's code, content type and body. -/
inductive AttemptOutcome
  | success (response : Nat)
  | osError
  | httpError (code : Nat) (contentType : Option String) (body : ErrorBody)

/-- How one `fetch` invocation ends: a returned response, a wrapped
`RequestException`, a raised classified `AWSError`, the original
`HTTPError` re-raised (when the classifier produced no structured error),
or a Python exception escaping `_process_error`. -/
inductive FetchRes
  | response (r : Nat)
  | requestException
  | awsError (e : AWSErrorModel)
  | httpErrorRaised (code : Nat)
  | pyRaised (e : PyExc)

/-- `raise aws_error if aws_error else error`. -/
def raiseOf (awsErr : Option AWSErrorModel) (code : Nat) : FetchRes :=
  match awsErr with
  | some e => .awsError e
  | none => .httpErrorRaised code

/-- One level of `AWSClient.fetch` (the synchronous client): perform the
attempt `oracle idx`, classify a failure with `process_error`, and when the
verdict asks for credentials while they are not local, reset and — on the
first attempt only — retry. `retry = none` models `recursed=True` (no
further recursion); `retry = some r` models `recursed=False` with `r` the
outcome of the recursive call. Returns the result, the number of signed
attempts performed, and the number of `reset()` calls. -/
def fetchStep (oracle : Nat → AttemptOutcome) (idx : Nat) (localCreds : Bool)
    (retry : Option (FetchRes × Nat × Nat)) : FetchRes × Nat × Nat :=
  match oracle idx with
  | .success r => (.response r, 1, 0)
  | .osError => (.requestException, 1, 0)
  | .httpError code ct body =>
    match process_error code ct body with
    | .raised e => (.pyRaised e, 1, 0)
    | .verdict need awsErr =>
      if need && !localCreds then
        match retry with
        | some r => (r.1, r.2.1 + 1, r.2.2 + 1)
        | none => (raiseOf awsErr code, 1, 1)
      else (raiseOf awsErr code, 1, 0)

/-- A whole `fetch` invocation: the first attempt may retry exactly once,
and the retried call runs with `recursed=True` (it can reset again but
never recurse). -/
def fetchModel (oracle : Nat → AttemptOutcome) (localCreds : Bool) :
    FetchRes × Nat × Nat :=
  fetchStep oracle 0 localCreds (some (fetchStep oracle 1 localCreds none))

/-! Helper lemmas. -/

/-- A list with a hash in the middle contains a hash. -/
theorem containsHash_app (pre post : List Char) :
    containsHash (pre ++ '#' :: post) = true := by
  induction pre with
  | nil => simp [containsHash]
  | cons c cs ih => simp [containsHash, ih]

/-- `dropHash` removes everything through the first hash. -/
theorem dropHash_app (pre post : List Char) (h : containsHash pre = false) :
    dropHash (pre ++ '#' :: post) = post := by
  induction pre with
  | nil => simp [dropHash]
  | cons c cs ih =>
    simp only [containsHash, Bool.or_eq_false_iff] at h
    simp [dropHash, h.1, ih h.2]

/-- `takeNoHash` keeps everything before the first hash. -/
theorem takeNoHash_app (pre post : List Char) (h : containsHash pre = false) :
    takeNoHash (pre ++ '#' :: post) = pre := by
  induction pre with
  | nil => simp [takeNoHash]
  | cons c cs ih =>
    simp only [containsHash, Bool.or_eq_false_iff] at h
    simp [takeNoHash, h.1, ih h.2]

/-- Hash-freeness as list non-membership. -/
theorem containsHash_eq_false_iff (l : List Char) :
    containsHash l = false ↔ '#' ∉ l := by
  induction l with
  | nil => simp [containsHash]
  | cons c cs ih =>
    rw [containsHash, Bool.or_eq_false_iff, ih]
    constructor
    · rintro ⟨h1, h2⟩ hmem
      rcases List.mem_cons.mp hmem with h | h
      · exact absurd h.symm (beq_eq_false_iff_ne.mp h1)
      · exact h2 h
    · intro h
      refine ⟨beq_eq_false_iff_ne.mpr ?_, fun hm => h (List.mem_cons_of_mem _ hm)⟩
      exact fun hc => h (by simp [hc])

/-- The second attempt of a `fetch` (running with `recursed=True`) performs
exactly one signed attempt. -/
theorem fetchStep_none_attempts (o : Nat → AttemptOutcome) (i : Nat)
    (l : Bool) : (fetchStep o i l none).2.1 = 1 := by
  cases ho : o i with
  | success r => simp [fetchStep, ho]
  | osError => simp [fetchStep, ho]
  | httpError c ct b =>
    cases hp : process_error c ct b with
    | raised e => simp [fetchStep, ho, hp]
    | verdict need err =>
      cases need <;> cases l <;> simp [fetchStep, ho, hp]

/-! Claim theorems. -/

/-- Claim C2 (code versus claim): on a provider whose credentials were
statically resolved (`local_credentials = true`), `reset()` does not reject
with any error — it clears the access key, secret key, security token and
expiration just as it would for a Dynamic provider, changing the stored
credentials and making `needs_credentials()` true. The source's own
docstring declares `LocalCredentialsError` as raised here, but no path
raises it. -/
theorem reset_clears_even_static :
    reset ⟨some "AKIA", some "SECRET", none, none, true⟩
      = ⟨none, none, none, none, true⟩ ∧
    needs_credentials (reset ⟨some "AKIA", some "SECRET", none, none, true⟩)
      = true ∧
    reset ⟨some "AKIA", some "SECRET", none, none, true⟩
      ≠ ⟨some "AKIA", some "SECRET", none, none, true⟩ := by
  decide

/-- Claim C3 (code versus claim): at construction, when an explicit access
key is passed while the corresponding environment variable is also set, the
environment value wins — `os.getenv('AWS_ACCESS_KEY_ID', access_key)`
consults the environment first and only falls back to the explicit
argument, the reverse of the documented explicit-first precedence. -/
theorem resolve_credentials_env_shadows_explicit :
    resolve_credentials "default" ⟨some "env-access-key", none, none, none⟩
      none (some "explicit-access-key") (some "explicit-secret-key") none
      = .ok ⟨some "env-access-key", some "explicit-secret-key",
             none, none, true⟩ ∧
    some "env-access-key" ≠ some "explicit-access-key" :=
  ⟨rfl, by decide⟩

/-- Claim C4 counterexample: a provider state with a non-empty access key,
an empty secret key and Dynamic origin (reachable by setting only
`AWS_ACCESS_KEY_ID` with no shared credentials file) makes
`needs_credentials()` return true, while the claim's characterisation
(Dynamic origin and empty access key) says false. -/
theorem needs_credentials_counterexample :
    needs_credentials ⟨some "AKIAEXAMPLE", none, none, none, false⟩ = true ∧
    needsCredentialsClaim ⟨some "AKIAEXAMPLE", none, none, none, false⟩
      = false := by
  decide

/-- Claim C4 (amended): `needs_credentials()` returns true iff the access
key or the secret key is currently empty (`None` or `''`), regardless of
the provider's origin. -/
theorem needs_credentials_iff (s : AuthState) :
    needs_credentials s = true ↔
      (s.access_key = none ∨ s.access_key = some "" ∨
       s.secret_key = none ∨ s.secret_key = some "") := by
  obtain ⟨ak, sk, st, ex, lc⟩ := s
  cases ak <;> cases sk <;>
    simp [needs_credentials, pyTruthy]

/-- Claim C8 counterexample: the code string `"AuthFailure"` appears,
spelled identically, in both the JSON-shape and the XML-shape refreshable
error code lists. -/
theorem refresh_lists_share_authfailure :
    REFRESH_EXCEPTIONS.contains "AuthFailure" = true ∧
    REFRESH_XML_EXCEPTIONS.contains "AuthFailure" = true := by
  decide

/-- Claim C8 (amended): the two refreshable code lists overlap in exactly
one spelling, `"AuthFailure"`; every other code appears in only one of the
two lists. -/
theorem refresh_lists_overlap_exactly_authfailure :
    REFRESH_EXCEPTIONS.filter
      (fun s => REFRESH_XML_EXCEPTIONS.contains s) = ["AuthFailure"] ∧
    REFRESH_XML_EXCEPTIONS.filter
      (fun s => REFRESH_EXCEPTIONS.contains s) = ["AuthFailure"] := by
  decide

/-- Claim C5 counterexample: header values are not trimmed. For the header
map `{'Host': ' example.com '}` the canonical headers string produced by
the signer keeps the surrounding whitespace, while the claim's version
(with trimmed values) does not, so the two disagree. -/
theorem signed_headers_no_trim_counterexample :
    (signed_headers [("Host", " example.com ")]).2 = "host: example.com \n" ∧
    (signedHeadersClaim [("Host", " example.com ")]).2 = "host:example.com\n" ∧
    signed_headers [("Host", " example.com ")]
      ≠ signedHeadersClaim [("Host", " example.com ")] := by
  decide

/-- Claim C5 (amended): the canonical headers string lower-cases every
header name, sorts entries by name in code-point order, and joins them as
`name:value` lines with a single trailing newline, and the signed-headers
list is the sorted lower-cased names joined with `;` — but header values
are included verbatim, not trimmed. Hence the claimed description holds
exactly on header maps whose values carry no leading or trailing
whitespace. -/
theorem signed_headers_claim_of_trimmed (headers : List (String × String))
    (h : ∀ p ∈ headers, pyStrip p.2 = p.2) :
    signed_headers headers = signedHeadersClaim headers := by
  have hm : headers.map (fun p => (asciiLower p.1, p.2))
      = headers.map (fun p => (asciiLower p.1, pyStrip p.2)) := by
    induction headers with
    | nil => rfl
    | cons a as ih =>
      simp only [List.map_cons]
      rw [h a (List.mem_cons_self a as)]
      exact congrArg _ (ih (fun p hp => h p (List.mem_cons_of_mem a hp)))
  simp only [signed_headers, signedHeadersClaim, hm]

/-- Claim C5 witness: on an already-trimmed header map the signer and the
claim's description agree. -/
theorem signed_headers_claim_of_trimmed_witness :
    signed_headers [("Host", "example.com"), ("X-Amz-Date", "20130524T000000Z")]
      = signedHeadersClaim
          [("Host", "example.com"), ("X-Amz-Date", "20130524T000000Z")] :=
  signed_headers_claim_of_trimmed _ (by decide)

/-- Claim C7 counterexample: a `__type` with two hashes. The code strips
through the FIRST hash (`str.index`), keeping `dynamodb#…`, while the
claim's last-hash reading would keep only the final segment. -/
theorem parse_awz_type_counterexample :
    parse_awz_error (.ok (.obj
        [("__type", "com.amazonaws#dynamodb#ExpiredTokenException")]))
      = .ok (some [("__type", "dynamodb#ExpiredTokenException")]) ∧
    awzTypeClaim "com.amazonaws#dynamodb#ExpiredTokenException"
      = "ExpiredTokenException" ∧
    ("dynamodb#ExpiredTokenException" : String) ≠ "ExpiredTokenException" :=
  ⟨rfl, by decide, by decide⟩

/-- Claim C7 (amended): the classified type is the `__type` value with
everything up to and including the FIRST hash removed (and a `__type`
without a hash is used unchanged); this coincides with the claimed
last-hash reading exactly when the value contains at most one hash. -/
theorem awz_type_strips_first_hash (pre post : List Char)
    (hpre : containsHash pre = false) (hpost : containsHash post = false) :
    awzTypeOf (String.mk (pre ++ '#' :: post)) = String.mk post ∧
    awzTypeClaim (String.mk (pre ++ '#' :: post)) = String.mk post ∧
    parse_awz_error (.ok (.obj
        [("__type", String.mk (pre ++ '#' :: post))]))
      = .ok (some [("__type", String.mk post)]) ∧
    ∀ t : String, containsHash t.data = false →
      awzTypeOf t = t ∧ awzTypeClaim t = t := by
  have h1 : awzTypeOf (String.mk (pre ++ '#' :: post)) = String.mk post := by
    simp [awzTypeOf, containsHash_app, dropHash_app pre post hpre]
  have h2 : awzTypeClaim (String.mk (pre ++ '#' :: post))
      = String.mk post := by
    have hrev : (pre ++ '#' :: post).reverse
        = post.reverse ++ '#' :: pre.reverse := by
      simp [List.reverse_append, List.reverse_cons, List.append_assoc]
    have hpost' : containsHash post.reverse = false := by
      rw [containsHash_eq_false_iff] at hpost ⊢
      simpa using hpost
    simp [awzTypeClaim, containsHash_app, hrev,
      takeNoHash_app _ _ hpost']
  refine ⟨h1, h2, ?_, ?_⟩
  · simp [parse_awz_error, dictUpd, h1]
  · intro t ht
    exact ⟨by simp [awzTypeOf, ht], by simp [awzTypeClaim, ht]⟩

/-- Claim C7 witness: single-hash `__type` values strip to the trailing
segment, on which the first-hash and last-hash readings agree. -/
theorem awz_type_strips_first_hash_witness :
    awzTypeOf (String.mk ("com.amazonaws.dynamodb.v20120810".data ++
        '#' :: "MissingAuthenticationTokenException".data))
      = String.mk "MissingAuthenticationTokenException".data :=
  (awz_type_strips_first_hash _ _ (by decide) (by decide)).1

/-- Claim C6 counterexample: the config file exists, lacks the requested
profile's section but has a `default` section — the claim calls this an
error, yet `get_region` succeeds with the default section's region. -/
theorem get_region_counterexample :
    get_region "foo" none (some [("default", [("region", "us-west-2")])])
      (.error ()) = .ok "us-west-2" ∧
    get_region "foo" none (some [("default", [("region", "us-west-2")])])
      (.error ()) ≠ .noProfileError := by
  decide

/-- Claim C6 (amended): the override variable wins when set and non-empty;
when the config file is missing, the metadata identity document is used and
a metadata failure raises `ConfigNotFound` (the built-in default region is
NOT a fallback on this branch); when the file exists, `NoProfileError` is
raised only if both the `profile <name>` section and the `default` section
are missing, and otherwise the region is the profile section's `region`
key, else the default section's, else the built-in default constant — the
metadata endpoint is never consulted once the file exists. -/
theorem get_region_amended (p r : String) (cfg : Sections)
    (md : Except Unit String) :
    (∀ file : Option Sections, r ≠ "" →
      get_region p (some r) file md = .ok r) ∧
    (get_region p none none md
      = match md with | .ok x => .ok x | .error _ => .configNotFound) ∧
    (hasSect cfg ("profile " ++ p) = false → hasSect cfg "default" = false →
      get_region p none (some cfg) md = .noProfileError) ∧
    ((hasSect cfg ("profile " ++ p) || hasSect cfg "default") = true →
      get_region p none (some cfg) md
        = .ok (pyOrD (pyOr (sectGet cfg ("profile " ++ p) "region")
                           (sectGet cfg "default" "region"))
                     DEFAULT_REGION)) := by
  refine ⟨?_, ?_, ?_, ?_⟩
  · intro file hr
    have hb : (r == "") = false := beq_eq_false_iff_ne.mpr hr
    simp [get_region, hb]
  · cases md <;> simp [get_region, get_region_rest]
  · intro h1 h2
    simp [get_region, get_region_rest, h1, h2]
  · intro h
    have hc : (!hasSect cfg ("profile " ++ p)
        && !hasSect cfg "default") = false := by
      rcases Bool.or_eq_true_iff.mp h with h' | h' <;> simp [h']
    simp [get_region, get_region_rest, hc]

/-- Claim C6 witness: the amended chain at concrete inputs — env override
wins; file present without the profile or default section raises
`NoProfileError`; file present with only a default region resolves to it
without consulting metadata. -/
theorem get_region_amended_witness :
    get_region "foo" (some "eu-west-1") none (.error ()) = .ok "eu-west-1" ∧
    get_region "bar" none (some [("other", [])]) (.ok "md-region")
      = .noProfileError ∧
    get_region "baz" none (some [("default", [("region", "us-west-2")])])
      (.ok "md-region") = .ok "us-west-2" :=
  ⟨(get_region_amended "foo" "eu-west-1" [] (.error ())).1 none (by decide),
   (get_region_amended "bar" "x" [("other", [])] (.ok "md-region")).2.2.1
     (by decide) (by decide),
   by
     rw [(get_region_amended "baz" "x"
       [("default", [("region", "us-west-2")])] (.ok "md-region")).2.2.2
       (by decide)]
     decide⟩

/-- Claim C9 counterexample: the payload of the well-formed XML body
`<Errs/>` (a single empty element) matches none of the known error shapes,
and the classifier does not raise the parse error (`ValueError`) there — a
`TypeError` escapes from `'Message' in None` instead. -/
theorem parse_xml_error_counterexample :
    parse_xml_error [("Errs", XmlVal.null)] = .error .typeError ∧
    PyExc.typeError ≠ PyExc.valueError :=
  ⟨rfl, by decide⟩

/-- Claim C9 (amended): for a payload matching none of the known shapes the
classifier raises the parse error (`ValueError`) whenever the sole
top-level element's value is a dict without a `Message` child or a string
not containing `"Message"`; but for an empty element (`None` value — and
likewise a string containing `"Message"`) a `TypeError` escapes instead of
the parse error. -/
theorem parse_xml_error_unmatched (tag : String) (v : XmlVal)
    (h1 : tag ≠ "Error") (h2 : tag ≠ "Errors") (h3 : tag ≠ "Response")
    (h4 : (match v with
           | .node d => d.any (fun p => p.1 == "Message") = false
           | .str s => subStr "Message".data s.data = false
           | .null => False)) :
    parse_xml_error [(tag, v)] = .error .valueError := by
  have hb1 : (tag == "Error") = false := beq_eq_false_iff_ne.mpr h1
  have hb2 : (tag == "Errors") = false := beq_eq_false_iff_ne.mpr h2
  have hb3 : (tag == "Response") = false := beq_eq_false_iff_ne.mpr h3
  cases v with
  | null => exact absurd h4 (by simp)
  | str s =>
    simp only at h4
    simp [parse_xml_error, xmlErrorShape2, xmlErrorShape3, xmlErrorShape4,
      hasKey, pyIn, hb1, hb2, hb3, h4]
  | node d =>
    simp only at h4
    simp [parse_xml_error, xmlErrorShape2, xmlErrorShape3, xmlErrorShape4,
      hasKey, pyIn, hb1, hb2, hb3, h4]

/-- Claim C9 witness: the spec's own unsupported shape
`<Errs><Err>…</Err></Errs>` raises the parse error. -/
theorem parse_xml_error_unmatched_witness :
    parse_xml_error [("Errs", XmlVal.node [("Err", XmlVal.str "boom")])]
      = .error .valueError :=
  parse_xml_error_unmatched "Errs" (XmlVal.node [("Err", XmlVal.str "boom")])
    (by decide) (by decide) (by decide) (by decide)

/-- Claim C10: a 400 response with an AWZ JSON content type whose body
parses as a JSON object without a `__type` field (or as a non-object JSON
value) makes `_parse_awz_error` return `None`, which `_process_error` then
subscripts — classification dies with an unhandled `TypeError` rather than
producing a structured error or a parse-failure verdict. -/
theorem process_error_subscripts_none (ct : String) (body : ErrorBody)
    (fields : List (String × String))
    (hct : AWZ_CONTENT_TYPES.contains ct = true)
    (hjson : body.json = .ok (.obj fields))
    (hnotype : fields.any (fun p => p.1 == "__type") = false) :
    parse_awz_error body.json = .ok none ∧
    process_error 400 (some ct) body = .raised .typeError ∧
    ∀ b2 : ErrorBody, b2.json = .ok .nonObj →
      parse_awz_error b2.json = .ok none ∧
      process_error 400 (some ct) b2 = .raised .typeError := by
  have hA : awz_response (some ct) = true := hct
  have hp : parse_awz_error body.json = .ok none := by
    rw [hjson]; simp [parse_awz_error, hnotype]
  refine ⟨hp, ?_, ?_⟩
  · simp [process_error, hA, hp]
  · intro b2 hb2
    have hp2 : parse_awz_error b2.json = .ok none := by rw [hb2]; rfl
    exact ⟨hp2, by simp [process_error, hA, hp2]⟩

/-- Claim C10 witness: concrete 400 AWZ response whose JSON object carries
only `message`. -/
theorem process_error_subscripts_none_witness :
    process_error 400 (some "application/json")
      ⟨.ok (.obj [("message", "Missing Authentication Token")]), .error ()⟩
      = .raised .typeError :=
  (process_error_subscripts_none "application/json"
    ⟨.ok (.obj [("message", "Missing Authentication Token")]), .error ()⟩
    [("message", "Missing Authentication Token")]
    (by decide) rfl (by decide)).2.1

/-- Claim C1: at most two signed attempts per `fetch` invocation; with
non-local (Dynamic-origin) credentials and two consecutive refreshable
classified errors, exactly two signed attempts and two resets occur and the
second error is raised — there is no third attempt no matter what the
classifier keeps reporting. -/
theorem fetch_at_most_one_retry (oracle : Nat → AttemptOutcome)
    (c1 c2 : Nat) (ct1 ct2 : Option String) (b1 b2 : ErrorBody)
    (e1 e2 : Option AWSErrorModel)
    (h0 : oracle 0 = .httpError c1 ct1 b1)
    (h1 : oracle 1 = .httpError c2 ct2 b2)
    (hp0 : process_error c1 ct1 b1 = .verdict true e1)
    (hp1 : process_error c2 ct2 b2 = .verdict true e2) :
    fetchModel oracle false = (raiseOf e2 c2, 2, 2) ∧
    ∀ (o : Nat → AttemptOutcome) (l : Bool),
      (fetchModel o l).2.1 ≤ 2 := by
  constructor
  · simp [fetchModel, fetchStep, h0, h1, hp0, hp1]
  · intro o l
    have hn := fetchStep_none_attempts o 1 l
    generalize hX : fetchStep o 1 l none = X at hn
    unfold fetchModel
    rw [hX]
    cases ho : o 0 with
    | success r => simp [fetchStep, ho]
    | osError => simp [fetchStep, ho]
    | httpError c ct b =>
      cases hp : process_error c ct b with
      | raised e => simp [fetchStep, ho, hp]
      | verdict need err =>
        cases hb : (need && !l) <;> simp [fetchStep, ho, hp, hb, hn]

/-- Claim C1 witness: two consecutive refreshable AWZ errors — the second
one is raised after exactly two signed attempts. -/
theorem fetch_at_most_one_retry_witness :
    fetchModel (fun n => .httpError 400 (some "application/x-amz-json-1.1")
        ⟨.ok (.obj [("__type", if n == 0 then "ExpiredTokenException"
                               else "UnrecognizedClientException")]),
         .error ()⟩) false
      = (raiseOf (some (.awz "UnrecognizedClientException" "(null)")) 400,
         2, 2) :=
  (fetch_at_most_one_retry _ 400 400
    (some "application/x-amz-json-1.1") (some "application/x-amz-json-1.1")
    ⟨.ok (.obj [("__type", "ExpiredTokenException")]), .error ()⟩
    ⟨.ok (.obj [("__type", "UnrecognizedClientException")]), .error ()⟩
    (some (.awz "ExpiredTokenException" "(null)"))
    (some (.awz "UnrecognizedClientException" "(null)"))
    rfl rfl rfl rfl).1

end TornadoAws
